import Mathlib

/-!
Shallow embedding of the AD5932 frequency-scan-generator driver
(`ad5932.c` / `ad5932.h`).

The hardware-abstraction layer (SSP bus, GPIO pins, delay) is modelled as an
explicit environment: a stream `bus : Nat → BusOutcome` gives, for each
successive call of `AD5932_SendSPICommand`, the SSP port status and, when the
port is clear, the raw return value of `SSP_Transfer`.  All externally visible
side effects (pin edges, transmitted 16-bit words, delays) are recorded in an
event trace.  Machine integers are modelled as `Nat` with explicit `% 2 ^ w`
truncation where the C code narrows (`u16` command register and parameters,
`u32` frequency values and the `u32 tmp` that receives the 64-bit quotient);
the return type `s32` is modelled as `Int`.
-/

namespace AD5932

/-- Outcome of the SSP environment for one `AD5932_SendSPICommand` call:
either `SSP_GetTransferStatus` reports busy, or the port is clear and
`SSP_Transfer` returns the raw value `r` (positive = words transferred,
zero or negative = fault). -/
inductive BusOutcome where
  | busy : BusOutcome
  | clear : Int → BusOutcome
deriving DecidableEq

/-- Externally observable hardware effects of the driver. -/
inductive Event where
  | fsync : Bool → Event
  | ctrl : Bool → Event
  | intpin : Bool → Event
  | stdby : Bool → Event
  | xfer : Nat → Event
  | delayUs : Nat → Event
deriving DecidableEq

/-- Driver state: the two globals `ad5932MCLK` and `ad5932CMD` of `ad5932.c`,
plus the bus environment, the index of the next bus interaction, and the
accumulated event trace. -/
structure St where
  ad5932MCLK : Nat
  ad5932CMD : Nat
  bus : Nat → BusOutcome
  busIdx : Nat
  events : List Event

/-- Header constant `AD5932_PORT_BUSY` (`0xFFFF`), as the `s32` it becomes in
the return position. -/
def AD5932_PORT_BUSY : Int := 0xFFFF

/-- Header constant `AD5932_PARAM_ERROR` (`0xFFF0`), as an `s32`. -/
def AD5932_PARAM_ERROR : Int := 0xFFF0

/-- Header constant `AD5932_ACCU_RESOLUTION` (`0x1000000`). -/
def AD5932_ACCU_RESOLUTION : Nat := 0x1000000

/-- Register-selector constant `AD5932_CREG`. -/
def AD5932_CREG : Nat := 0x0000

/-- Register-selector constant `AD5932_NINCR`. -/
def AD5932_NINCR : Nat := 0x1000

/-- Register-selector constant `AD5932_DFREQ_LO`. -/
def AD5932_DFREQ_LO : Nat := 0x2000

/-- Register-selector constant `AD5932_DFREQ_HI`. -/
def AD5932_DFREQ_HI : Nat := 0x3000

/-- Register-selector constant `AD5932_TINT_WCYCLES`. -/
def AD5932_TINT_WCYCLES : Nat := 0x4000

/-- Register-selector constant `AD5932_TINT_MCLKCYCLES`. -/
def AD5932_TINT_MCLKCYCLES : Nat := 0x6000

/-- Register-selector constant `AD5932_FSTART_LO`. -/
def AD5932_FSTART_LO : Nat := 0xC000

/-- Register-selector constant `AD5932_FSTART_HI`. -/
def AD5932_FSTART_HI : Nat := 0xD000

/-- `RegBits_t` enumerator `DAC_EN`. -/
def DAC_EN : Nat := 1

/-- `RegBits_t` enumerator `DAC_DISABLE`. -/
def DAC_DISABLE : Nat := 0

/-- `RegBits_t` enumerator `SINE_OUT`. -/
def SINE_OUT : Nat := 1

/-- `RegBits_t` enumerator `TRIANGLE_OUT`. -/
def TRIANGLE_OUT : Nat := 0

/-- `RegBits_t` enumerator `MSBOUT_EN`. -/
def MSBOUT_EN : Nat := 1

/-- `RegBits_t` enumerator `MSBOUT_DISABLE`. -/
def MSBOUT_DISABLE : Nat := 0

/-- `RegBits_t` enumerator `AUTOMATIC_TRIGGER`. -/
def AUTOMATIC_TRIGGER : Nat := 0

/-- `RegBits_t` enumerator `EXTERNAL_TRIGGER`. -/
def EXTERNAL_TRIGGER : Nat := 1

/-- `RegBits_t` enumerator `SYNCSEL_END`. -/
def SYNCSEL_END : Nat := 1

/-- `RegBits_t` enumerator `SYNCSEL_SUBSEQVENT`. -/
def SYNCSEL_SUBSEQVENT : Nat := 0

/-- `RegBits_t` enumerator `SYNCOUT_EN`. -/
def SYNCOUT_EN : Nat := 1

/-- `RegBits_t` enumerator `SYNCOUT_DISABLE`. -/
def SYNCOUT_DISABLE : Nat := 0

/-- `AD5932_SweepType_t` enumerator `INCREMENTAL_SWEEP` (= `true` = 1). -/
def INCREMENTAL_SWEEP : Nat := 1

/-- `AD5932_SweepType_t` enumerator `DECREMENTAL_SWEEP` (= `false` = 0). -/
def DECREMENTAL_SWEEP : Nat := 0

/-- `AD5932_IncIntervall_t` enumerator `WAVE_OUT_BASED` (= `true` = 1). -/
def WAVE_OUT_BASED : Nat := 1

/-- `AD5932_IncIntervall_t` enumerator `MCLK_INP_BASED` (= `false` = 0).
Its numeric value matters: `AD5932_SetIncrementIntervall` uses this
enumerator itself as a command mask. -/
def MCLK_INP_BASED : Nat := 0

/-- `AD5932_SetFSYNCPin`: drive the FSYNC (frame-select) line. -/
def AD5932_SetFSYNCPin (state : Bool) (s : St) : St :=
  { s with events := s.events ++ [Event.fsync state] }

/-- `AD5932_SetCTRLPin`: drive the CTRL line. -/
def AD5932_SetCTRLPin (state : Bool) (s : St) : St :=
  { s with events := s.events ++ [Event.ctrl state] }

/-- `AD5932_SetINTPin`: drive the INTERRUPT line. -/
def AD5932_SetINTPin (state : Bool) (s : St) : St :=
  { s with events := s.events ++ [Event.intpin state] }

/-- `AD5932_SetSTDBYPin`: drive the STANDBY line. -/
def AD5932_SetSTDBYPin (state : Bool) (s : St) : St :=
  { s with events := s.events ++ [Event.stdby state] }

/-- `delay_us`: blocking microsecond delay, recorded as an event. -/
def delay_us (n : Nat) (s : St) : St :=
  { s with events := s.events ++ [Event.delayUs n] }

/-- `AD5932_Init`: initial pin configuration, stores the MCLK frequency. -/
def AD5932_Init (MCLK : Nat) (s : St) : St :=
  let s := AD5932_SetCTRLPin false s
  let s := AD5932_SetINTPin false s
  let s := AD5932_SetFSYNCPin true s
  let s := AD5932_SetSTDBYPin false s
  { s with ad5932MCLK := MCLK % 2 ^ 32 }

/-- `AD5932_SendSPICommand`: checks the port status; if clear, pulls FSYNC
low, transfers the 16-bit word, releases FSYNC, and maps a positive
`SSP_Transfer` return to 0 while passing a non-positive return through;
if busy, returns `AD5932_PORT_BUSY` without touching FSYNC or the bus. -/
def AD5932_SendSPICommand (commandWord : Nat) (s : St) : Int × St :=
  match s.bus s.busIdx with
  | BusOutcome.clear r =>
      let s1 := AD5932_SetFSYNCPin false s
      let s2 : St :=
        { s1 with
          events := s1.events ++ [Event.xfer (commandWord % 2 ^ 16)]
          busIdx := s1.busIdx + 1 }
      let s3 := AD5932_SetFSYNCPin true s2
      (if r > 0 then 0 else r, s3)
  | BusOutcome.busy => (AD5932_PORT_BUSY, { s with busIdx := s.busIdx + 1 })

/-- Assignment to the `u16` global `ad5932CMD` (truncates to 16 bits). -/
def setCMD (w : Nat) (s : St) : St :=
  { s with ad5932CMD := w % 2 ^ 16 }

/-- The pure control-register word computed by `AD5932_SetControlRegister`:
the `u16 temp` bit-packing, OR'd with the `AD5932_CREG` selector. -/
def ctrlWord (DAC_STATE WAVE_TYPE MBSOUT_STATE TRIGGER_TYPE SYNCSEL_STATE SYNCOUT_STATE : Nat) : Nat :=
  let temp : Nat := 1
  let temp := (temp ||| 1 <<< 1) % 2 ^ 16
  let temp := (temp ||| SYNCOUT_STATE <<< 2) % 2 ^ 16
  let temp := (temp ||| SYNCSEL_STATE <<< 3) % 2 ^ 16
  let temp := (temp ||| 1 <<< 4) % 2 ^ 16
  let temp := (temp ||| TRIGGER_TYPE <<< 5) % 2 ^ 16
  let temp := (temp ||| 1 <<< 6) % 2 ^ 16
  let temp := (temp ||| 1 <<< 7) % 2 ^ 16
  let temp := (temp ||| MBSOUT_STATE <<< 8) % 2 ^ 16
  let temp := (temp ||| WAVE_TYPE <<< 9) % 2 ^ 16
  let temp := (temp ||| DAC_STATE <<< 10) % 2 ^ 16
  let temp := (temp ||| 1 <<< 11) % 2 ^ 16
  AD5932_CREG ||| temp

/-- `AD5932_SetControlRegister`: packs the six flag bits and the reserved
bits into the control word and transmits it. -/
def AD5932_SetControlRegister (DAC_STATE WAVE_TYPE MBSOUT_STATE TRIGGER_TYPE SYNCSEL_STATE SYNCOUT_STATE : Nat) (s : St) : Int × St :=
  let s := setCMD (ctrlWord DAC_STATE WAVE_TYPE MBSOUT_STATE TRIGGER_TYPE SYNCSEL_STATE SYNCOUT_STATE) s
  AD5932_SendSPICommand s.ad5932CMD s

/-- `AD5932_SetIncrement`: range-checks the `u16` increment count and
transmits `AD5932_NINCR | value`. -/
def AD5932_SetIncrement (value : Nat) (s : St) : Int × St :=
  let value := value % 2 ^ 16
  if value > 4095 ∨ value < 2 then (AD5932_PARAM_ERROR, s)
  else
    let s := setCMD (AD5932_NINCR ||| value) s
    AD5932_SendSPICommand s.ad5932CMD s

/-- `AD5932_SetIncrementIntervall`: range-checks the `u16` interval and
transmits it under `AD5932_TINT_WCYCLES` for the wave-out basis; for the
MCLK basis the C code ORs the enumerator `MCLK_INP_BASED` (numeric 0)
instead of the selector constant `AD5932_TINT_MCLKCYCLES`. -/
def AD5932_SetIncrementIntervall (value : Nat) (incrementBase : Nat) (s : St) : Int × St :=
  let value := value % 2 ^ 16
  if value > 2047 ∨ value < 2 then (AD5932_PARAM_ERROR, s)
  else
    let s :=
      if incrementBase = WAVE_OUT_BASED then setCMD (AD5932_TINT_WCYCLES ||| value) s
      else setCMD (MCLK_INP_BASED ||| value) s
    AD5932_SendSPICommand s.ad5932CMD s

/-- The `u32 tmp = (u64)value * AD5932_ACCU_RESOLUTION / ad5932MCLK`
computation shared by the two frequency setters: 64-bit multiply and
divide, truncated into a `u32`. -/
def freqWord (value mclk : Nat) : Nat :=
  value * AD5932_ACCU_RESOLUTION / mclk % 2 ^ 32

/-- `AD5932_SetDeltaFrequency`: range-checks the `u32` frequency, splits the
accumulator value into LOW and HIGH delta-frequency words, ORs the
negative-sweep indicator bit into the HIGH word for a decremental sweep,
and transmits both, early-returning only on `AD5932_PORT_BUSY`. -/
def AD5932_SetDeltaFrequency (value : Nat) (SweepType : Nat) (s : St) : Int × St :=
  let value := value % 2 ^ 32
  if value > 0x7FFFFFFF then (AD5932_PARAM_ERROR, s)
  else
    let tmp := freqWord value s.ad5932MCLK
    let s := setCMD (AD5932_DFREQ_LO ||| (tmp &&& 0x00000FFF)) s
    let r1 := AD5932_SendSPICommand s.ad5932CMD s
    if r1.1 = AD5932_PORT_BUSY then r1
    else
      let s2 := setCMD (AD5932_DFREQ_HI ||| (tmp >>> 12 &&& 0x00000FFF)) r1.2
      let s3 := if SweepType = DECREMENTAL_SWEEP then setCMD (s2.ad5932CMD ||| 1 <<< 11) s2 else s2
      let r2 := AD5932_SendSPICommand s3.ad5932CMD s3
      if r2.1 = AD5932_PORT_BUSY then r2 else (0, r2.2)

/-- `AD5932_SetStartFrequency`: range-checks the `u32` frequency (also
rejecting 0), splits the accumulator value into LOW and HIGH start-frequency
words and transmits both, early-returning only on `AD5932_PORT_BUSY`. -/
def AD5932_SetStartFrequency (value : Nat) (s : St) : Int × St :=
  let value := value % 2 ^ 32
  if value > 0x7FFFFFFF ∨ value < 1 then (AD5932_PARAM_ERROR, s)
  else
    let tmp := freqWord value s.ad5932MCLK
    let s := setCMD (AD5932_FSTART_LO ||| (tmp &&& 0x00000FFF)) s
    let r1 := AD5932_SendSPICommand s.ad5932CMD s
    if r1.1 = AD5932_PORT_BUSY then r1
    else
      let s2 := setCMD (AD5932_FSTART_HI ||| (tmp >>> 12 &&& 0x00000FFF)) r1.2
      let r2 := AD5932_SendSPICommand s2.ad5932CMD s2
      if r2.1 = AD5932_PORT_BUSY then r2 else (0, r2.2)

/-- `AD5932_TriggerCTRLPin`: CTRL high, 100 microseconds, CTRL low. -/
def AD5932_TriggerCTRLPin (s : St) : St :=
  let s := AD5932_SetCTRLPin true s
  let s := delay_us 100 s
  AD5932_SetCTRLPin false s

/-- `AD5932_SingleFrequencyGenerator`: control register (with
`EXTERNAL_TRIGGER` hard-wired), then start frequency; steps abort when the
returned code is negative; on automatic trigger mode, pulses CTRL. -/
def AD5932_SingleFrequencyGenerator (frequency WAVE_TYPE MSBOUT TRIGGER : Nat) (s : St) : Int × St :=
  let s := AD5932_SetCTRLPin false s
  let r1 := AD5932_SetControlRegister DAC_EN WAVE_TYPE MSBOUT EXTERNAL_TRIGGER SYNCSEL_END SYNCOUT_EN s
  if r1.1 < 0 then (-1, r1.2)
  else
    let r2 := AD5932_SetStartFrequency frequency r1.2
    if r2.1 < 0 then (-2, r2.2)
    else
      let s := if TRIGGER = AUTOMATIC_TRIGGER then AD5932_TriggerCTRLPin r2.2 else r2.2
      (0, s)

/-- `AD5932_SweepGenerator`: control register, start frequency, delta
frequency, increment interval, increment count; each step aborts when the
returned code is negative; on automatic trigger mode, pulses CTRL. -/
def AD5932_SweepGenerator (startFreq deltaFrerq increment INCRTYPE incIntervall SWEEPTYPE WAVE_TYPE MSBOUT TRIGGER SYNCSEL SYNCOUT : Nat) (s : St) : Int × St :=
  let s := AD5932_SetCTRLPin false s
  let r1 := AD5932_SetControlRegister DAC_EN WAVE_TYPE MSBOUT TRIGGER SYNCSEL SYNCOUT s
  if r1.1 < 0 then (-1, r1.2)
  else
    let r2 := AD5932_SetStartFrequency startFreq r1.2
    if r2.1 < 0 then (-2, r2.2)
    else
      let r3 := AD5932_SetDeltaFrequency deltaFrerq SWEEPTYPE r2.2
      if r3.1 < 0 then (-3, r3.2)
      else
        let r4 := AD5932_SetIncrementIntervall incIntervall INCRTYPE r3.2
        if r4.1 < 0 then (-4, r4.2)
        else
          let r5 := AD5932_SetIncrement increment r4.2
          if r5.1 < 0 then (-5, r5.2)
          else
            let s := if TRIGGER = AUTOMATIC_TRIGGER then AD5932_TriggerCTRLPin r5.2 else r5.2
            (0, s)

/-- `AD5932_TestSetup`: fixed-parameter sweep used as a hardware self-test. -/
def AD5932_TestSetup (s : St) : Int × St :=
  let s := AD5932_SetCTRLPin false s
  let r1 := AD5932_SetControlRegister DAC_EN SINE_OUT MSBOUT_EN AUTOMATIC_TRIGGER SYNCSEL_END SYNCOUT_EN s
  if r1.1 < 0 then (-1, r1.2)
  else
    let r2 := AD5932_SetStartFrequency 1000 r1.2
    if r2.1 < 0 then (-2, r2.2)
    else
      let r3 := AD5932_SetDeltaFrequency 1000 INCREMENTAL_SWEEP r2.2
      if r3.1 < 0 then (-3, r3.2)
      else
        let r4 := AD5932_SetIncrementIntervall 2000 WAVE_OUT_BASED r3.2
        if r4.1 < 0 then (-4, r4.2)
        else
          let r5 := AD5932_SetIncrement 2 r4.2
          if r5.1 < 0 then (-5, r5.2)
          else (0, AD5932_TriggerCTRLPin r5.2)

/-- Decoding a 16-bit command word (spec section 6): its 4-bit register
selector, bits 15:12. -/
def selector (w : Nat) : Nat := w / 4096

/-- Decoding a 16-bit command word (spec section 6): its 12-bit payload,
bits 11:0. -/
def payload (w : Nat) : Nat := w % 4096

/-- The 16-bit words actually transmitted over the SPI bus in a trace. -/
def xferWords (es : List Event) : List Nat :=
  es.filterMap fun e =>
    match e with
    | Event.xfer w => some w
    | _ => none

/-- A bus environment in which every transfer goes through cleanly. -/
def clearBus : Nat → BusOutcome := fun _ => BusOutcome.clear 1

/-- A fresh driver state over a given clock frequency and bus environment. -/
def mkSt (mclk : Nat) (b : Nat → BusOutcome) : St :=
  { ad5932MCLK := mclk, ad5932CMD := 0, bus := b, busIdx := 0, events := [] }

/-- Bus environment whose first interaction reports busy, all later ones
clear. -/
def busyFirstBus : Nat → BusOutcome := fun i =>
  if i = 0 then BusOutcome.busy else BusOutcome.clear 1

/-- Bus environment whose first transfer fails with the SSP error code -5,
all later ones clear. -/
def errFirstBus : Nat → BusOutcome := fun i =>
  if i = 0 then BusOutcome.clear (-5) else BusOutcome.clear 1

/-- Bus environment that always reports busy. -/
def busyBus : Nat → BusOutcome := fun _ => BusOutcome.busy

/-- Bus environment in which every transfer fails with the SSP error code
-5. -/
def errAllBus : Nat → BusOutcome := fun _ => BusOutcome.clear (-5)

/-- A clear bus interaction wraps the transfer in an FSYNC-low/FSYNC-high
frame and passes a non-positive transfer return through. -/
theorem send_clear (w : Nat) (s : St) (r : Int)
    (h : s.bus s.busIdx = BusOutcome.clear r) :
    AD5932_SendSPICommand w s =
      (if r > 0 then 0 else r,
       { s with
         events := s.events ++ [Event.fsync false, Event.xfer (w % 2 ^ 16), Event.fsync true]
         busIdx := s.busIdx + 1 }) := by
  unfold AD5932_SendSPICommand
  rw [h]
  simp [AD5932_SetFSYNCPin]

/-- A busy bus interaction returns `AD5932_PORT_BUSY` with no events. -/
theorem send_busy (w : Nat) (s : St)
    (h : s.bus s.busIdx = BusOutcome.busy) :
    AD5932_SendSPICommand w s = (AD5932_PORT_BUSY, { s with busIdx := s.busIdx + 1 }) := by
  unfold AD5932_SendSPICommand
  rw [h]

/-- The result of a clear transfer is never the busy code. -/
theorem clear_ret_ne_busy (r : Int) : (if r > 0 then (0 : Int) else r) ≠ AD5932_PORT_BUSY := by
  unfold AD5932_PORT_BUSY
  split <;> omega

/-- `xferWords` distributes over trace concatenation. -/
theorem xferWords_append (a b : List Event) :
    xferWords (a ++ b) = xferWords a ++ xferWords b := by
  unfold xferWords
  exact List.filterMap_append a b _

/-- The words of one framed transfer. -/
theorem xferWords_frame (w : Nat) :
    xferWords [Event.fsync false, Event.xfer w, Event.fsync true] = [w] := rfl

/-- Right shift distributes over bitwise or. -/
theorem or_shiftRight (a b n : Nat) : (a ||| b) >>> n = a >>> n ||| b >>> n := by
  induction n with
  | zero => rfl
  | succ n ih =>
      rw [Nat.shiftRight_succ, Nat.shiftRight_succ, Nat.shiftRight_succ, ih, Nat.or_div_two]

/-- Masking to the low 12 bits is reduction mod 4096. -/
theorem and_fff (x : Nat) : x &&& 4095 = x % 4096 := by
  have h := Nat.and_pow_two_sub_one_eq_mod x 12
  norm_num at h
  exact h

/-- Payload of a selector-tagged word: the selector mask has zero low bits,
so the payload decodes to the 12-bit operand. -/
theorem payload_or (m p : Nat) (hm : m % 4096 = 0) (hp : p < 4096) :
    payload (m ||| p) = p := by
  unfold payload
  rw [← and_fff, Nat.and_distrib_right, and_fff, and_fff, hm, Nat.mod_eq_of_lt hp]
  simp

/-- Selector of a selector-tagged word: a 12-bit operand does not reach the
selector field. -/
theorem selector_or (m p : Nat) (hp : p < 4096) :
    selector (m ||| p) = selector m := by
  unfold selector
  have hdiv : ∀ x : Nat, x / 4096 = x >>> 12 := by
    intro x
    rw [Nat.shiftRight_eq_div_pow]
  rw [hdiv, hdiv, or_shiftRight]
  have hp0 : p >>> 12 = 0 := by
    rw [Nat.shiftRight_eq_div_pow]
    exact Nat.div_eq_of_lt (by norm_num at hp ⊢; omega)
  rw [hp0, Nat.or_zero]

/-- A selector-tagged word with a 12-bit operand fits in 16 bits. -/
theorem or_lt_two_pow_16 (m p : Nat) (hm : m < 2 ^ 16) (hp : p < 2 ^ 16) :
    m ||| p < 2 ^ 16 :=
  Nat.or_lt_two_pow hm hp

theorem setStart_clear_run (f : Nat) (s : St) (r1 r2 : Int)
    (hf : ¬(f % 2 ^ 32 > 0x7FFFFFFF ∨ f % 2 ^ 32 < 1))
    (hb1 : s.bus s.busIdx = BusOutcome.clear r1)
    (hb2 : s.bus (s.busIdx + 1) = BusOutcome.clear r2) :
    (AD5932_SetStartFrequency f s).1 = 0 ∧
    (AD5932_SetStartFrequency f s).2.events =
      s.events ++
        [Event.fsync false,
         Event.xfer (AD5932_FSTART_LO ||| (freqWord (f % 2 ^ 32) s.ad5932MCLK &&& 4095)),
         Event.fsync true,
         Event.fsync false,
         Event.xfer (AD5932_FSTART_HI ||| (freqWord (f % 2 ^ 32) s.ad5932MCLK >>> 12 &&& 4095)),
         Event.fsync true] := by
  have hlt : ∀ x : Nat, x &&& 4095 < 4096 := by
    intro x
    rw [and_fff]
    exact Nat.mod_lt _ (by norm_num)
  have hmask : ∀ m x : Nat, m < 2 ^ 16 → (m ||| (x &&& 4095)) % 2 ^ 16 = m ||| (x &&& 4095) := by
    intro m x hm
    exact Nat.mod_eq_of_lt (or_lt_two_pow_16 m _ hm (lt_trans (hlt x) (by norm_num)))
  simp only [AD5932_SetStartFrequency, setCMD, AD5932_SendSPICommand, AD5932_SetFSYNCPin]
  rw [if_neg hf]
  rw [hb1]
  rw [if_neg (clear_ret_ne_busy r1)]
  rw [hb2]
  rw [if_neg (clear_ret_ne_busy r2)]
  have hw1 : (AD5932_FSTART_LO ||| (freqWord (f % 2 ^ 32) s.ad5932MCLK &&& 4095)) % 2 ^ 16
      = AD5932_FSTART_LO ||| (freqWord (f % 2 ^ 32) s.ad5932MCLK &&& 4095) :=
    hmask _ _ (by norm_num [AD5932_FSTART_LO])
  have hw2 : (AD5932_FSTART_HI ||| (freqWord (f % 2 ^ 32) s.ad5932MCLK >>> 12 &&& 4095)) % 2 ^ 16
      = AD5932_FSTART_HI ||| (freqWord (f % 2 ^ 32) s.ad5932MCLK >>> 12 &&& 4095) :=
    hmask _ _ (by norm_num [AD5932_FSTART_HI])
  refine ⟨rfl, ?_⟩
  simp only [hw1, hw2, List.append_assoc]
  rfl
theorem setDelta_clear_run_inc (value : Nat) (s : St) (r1 r2 : Int)
    (hf : ¬(value % 2 ^ 32 > 0x7FFFFFFF))
    (hb1 : s.bus s.busIdx = BusOutcome.clear r1)
    (hb2 : s.bus (s.busIdx + 1) = BusOutcome.clear r2) :
    (AD5932_SetDeltaFrequency value INCREMENTAL_SWEEP s).1 = 0 ∧
    (AD5932_SetDeltaFrequency value INCREMENTAL_SWEEP s).2.events =
      s.events ++
        [Event.fsync false,
         Event.xfer (AD5932_DFREQ_LO ||| (freqWord (value % 2 ^ 32) s.ad5932MCLK &&& 4095)),
         Event.fsync true,
         Event.fsync false,
         Event.xfer (AD5932_DFREQ_HI ||| (freqWord (value % 2 ^ 32) s.ad5932MCLK >>> 12 &&& 4095)),
         Event.fsync true] := by
  have hlt : ∀ x : Nat, x &&& 4095 < 4096 := by
    intro x
    rw [and_fff]
    exact Nat.mod_lt _ (by norm_num)
  have hmask : ∀ m x : Nat, m < 2 ^ 16 → (m ||| (x &&& 4095)) % 2 ^ 16 = m ||| (x &&& 4095) := by
    intro m x hm
    exact Nat.mod_eq_of_lt (or_lt_two_pow_16 m _ hm (lt_trans (hlt x) (by norm_num)))
  simp only [AD5932_SetDeltaFrequency, setCMD, AD5932_SendSPICommand, AD5932_SetFSYNCPin]
  rw [if_neg hf]
  rw [hb1]
  rw [if_neg (clear_ret_ne_busy r1)]
  rw [if_neg (by decide : ¬(INCREMENTAL_SWEEP = DECREMENTAL_SWEEP))]
  rw [hb2]
  rw [if_neg (clear_ret_ne_busy r2)]
  have hw1 : (AD5932_DFREQ_LO ||| (freqWord (value % 2 ^ 32) s.ad5932MCLK &&& 4095)) % 2 ^ 16
      = AD5932_DFREQ_LO ||| (freqWord (value % 2 ^ 32) s.ad5932MCLK &&& 4095) :=
    hmask _ _ (by norm_num [AD5932_DFREQ_LO])
  have hw2 : (AD5932_DFREQ_HI ||| (freqWord (value % 2 ^ 32) s.ad5932MCLK >>> 12 &&& 4095)) % 2 ^ 16
      = AD5932_DFREQ_HI ||| (freqWord (value % 2 ^ 32) s.ad5932MCLK >>> 12 &&& 4095) :=
    hmask _ _ (by norm_num [AD5932_DFREQ_HI])
  refine ⟨rfl, ?_⟩
  simp only [hw1, hw2, List.append_assoc]
  rfl

theorem setDelta_clear_run_dec (value : Nat) (s : St) (r1 r2 : Int)
    (hf : ¬(value % 2 ^ 32 > 0x7FFFFFFF))
    (hb1 : s.bus s.busIdx = BusOutcome.clear r1)
    (hb2 : s.bus (s.busIdx + 1) = BusOutcome.clear r2) :
    (AD5932_SetDeltaFrequency value DECREMENTAL_SWEEP s).1 = 0 ∧
    (AD5932_SetDeltaFrequency value DECREMENTAL_SWEEP s).2.events =
      s.events ++
        [Event.fsync false,
         Event.xfer (AD5932_DFREQ_LO ||| (freqWord (value % 2 ^ 32) s.ad5932MCLK &&& 4095)),
         Event.fsync true,
         Event.fsync false,
         Event.xfer ((AD5932_DFREQ_HI ||| (freqWord (value % 2 ^ 32) s.ad5932MCLK >>> 12 &&& 4095)) ||| 1 <<< 11),
         Event.fsync true] := by
  have hlt : ∀ x : Nat, x &&& 4095 < 4096 := by
    intro x
    rw [and_fff]
    exact Nat.mod_lt _ (by norm_num)
  have hmask : ∀ m x : Nat, m < 2 ^ 16 → (m ||| (x &&& 4095)) % 2 ^ 16 = m ||| (x &&& 4095) := by
    intro m x hm
    exact Nat.mod_eq_of_lt (or_lt_two_pow_16 m _ hm (lt_trans (hlt x) (by norm_num)))
  simp only [AD5932_SetDeltaFrequency, setCMD, AD5932_SendSPICommand, AD5932_SetFSYNCPin]
  rw [if_neg hf]
  rw [hb1]
  rw [if_neg (clear_ret_ne_busy r1)]
  simp only [ite_true]
  rw [hb2]
  rw [if_neg (clear_ret_ne_busy r2)]
  have hw1 : (AD5932_DFREQ_LO ||| (freqWord (value % 2 ^ 32) s.ad5932MCLK &&& 4095)) % 2 ^ 16
      = AD5932_DFREQ_LO ||| (freqWord (value % 2 ^ 32) s.ad5932MCLK &&& 4095) :=
    hmask _ _ (by norm_num [AD5932_DFREQ_LO])
  have hw2 : (AD5932_DFREQ_HI ||| (freqWord (value % 2 ^ 32) s.ad5932MCLK >>> 12 &&& 4095)) % 2 ^ 16
      = AD5932_DFREQ_HI ||| (freqWord (value % 2 ^ 32) s.ad5932MCLK >>> 12 &&& 4095) :=
    hmask _ _ (by norm_num [AD5932_DFREQ_HI])
  have hw3 : ((AD5932_DFREQ_HI ||| (freqWord (value % 2 ^ 32) s.ad5932MCLK >>> 12 &&& 4095)) ||| 1 <<< 11) % 2 ^ 16
      = (AD5932_DFREQ_HI ||| (freqWord (value % 2 ^ 32) s.ad5932MCLK >>> 12 &&& 4095)) ||| 1 <<< 11 := by
    refine Nat.mod_eq_of_lt (or_lt_two_pow_16 _ _ ?_ (by decide))
    refine or_lt_two_pow_16 _ _ (by norm_num [AD5932_DFREQ_HI]) (lt_trans (hlt _) (by norm_num))
  refine ⟨rfl, ?_⟩
  simp only [hw1, hw2, hw3, List.append_assoc]
  rfl

theorem freqWord_eq (f mclk : Nat) (hf0 : 0 < f) (hfm : f < mclk) (hf31 : f ≤ 0x7FFFFFFF) :
    freqWord (f % 2 ^ 32) mclk = f * 2 ^ 24 / mclk ∧ f * 2 ^ 24 / mclk < 2 ^ 24 := by
  have hmpos : 0 < mclk := lt_trans hf0 hfm
  have hmodf : f % 2 ^ 32 = f := Nat.mod_eq_of_lt (by omega)
  have hacc : f * 2 ^ 24 / mclk < 2 ^ 24 :=
    Nat.div_lt_of_lt_mul (mul_lt_mul_of_pos_right hfm (by norm_num))
  constructor
  · unfold freqWord AD5932_ACCU_RESOLUTION
    rw [hmodf]
    have h24 : (0x1000000 : Nat) = 2 ^ 24 := by norm_num
    rw [h24]
    exact Nat.mod_eq_of_lt (lt_trans hacc (by norm_num))
  · exact hacc

theorem payload_pair (m acc : Nat) (hm : m % 4096 = 0) :
    payload (m ||| (acc &&& 4095)) = acc % 4096 ∧
    payload (m ||| (acc >>> 12 &&& 4095)) = acc / 4096 % 4096 ∧
    selector (m ||| (acc &&& 4095)) = selector m ∧
    selector (m ||| (acc >>> 12 &&& 4095)) = selector m := by
  have hlt : ∀ x : Nat, x &&& 4095 < 4096 := by
    intro x
    rw [and_fff]
    exact Nat.mod_lt _ (by norm_num)
  have hsh : acc >>> 12 = acc / 4096 := by
    rw [Nat.shiftRight_eq_div_pow]
  refine ⟨?_, ?_, selector_or m _ (hlt acc), selector_or m _ (hlt _)⟩
  · rw [payload_or m _ hm (hlt acc), and_fff]
  · rw [payload_or m _ hm (hlt _), and_fff, hsh]

/-- C1 (amended): for every frequency f with 0 < f < mclk (strictly below the
clock; f within the encoder's accepted range f ≤ 2^31-1) and a clear bus,
programming the start frequency — and likewise the delta frequency with an
incremental sweep — emits exactly two command words carrying the expected
register selectors, whose 12-bit payloads reconstruct as
high*4096 + low = floor(f * 2^24 / mclk), and this accumulator value is
below 2^24.  (At f = mclk the accumulator is exactly 2^24 and the two 12-bit
payloads reconstruct to 0, refuting the claim's original bound f ≤ mclk.) -/
theorem C1_frequency_accumulator (f mclk : Nat) (s : St) (r1 r2 : Int)
    (hm : s.ad5932MCLK = mclk)
    (hf0 : 0 < f) (hfm : f < mclk) (hf31 : f ≤ 0x7FFFFFFF)
    (hb1 : s.bus s.busIdx = BusOutcome.clear r1)
    (hb2 : s.bus (s.busIdx + 1) = BusOutcome.clear r2) :
    f * 2 ^ 24 / mclk < 2 ^ 24 ∧
    (∃ lo hi,
      xferWords (AD5932_SetStartFrequency f s).2.events = xferWords s.events ++ [lo, hi] ∧
      selector lo = 12 ∧ selector hi = 13 ∧
      payload hi * 4096 + payload lo = f * 2 ^ 24 / mclk) ∧
    (∃ lo hi,
      xferWords (AD5932_SetDeltaFrequency f INCREMENTAL_SWEEP s).2.events = xferWords s.events ++ [lo, hi] ∧
      selector lo = 2 ∧ selector hi = 3 ∧
      payload hi * 4096 + payload lo = f * 2 ^ 24 / mclk) := by
  obtain ⟨hfw, hacc⟩ := freqWord_eq f mclk hf0 hfm hf31
  have hguard1 : ¬(f % 2 ^ 32 > 0x7FFFFFFF ∨ f % 2 ^ 32 < 1) := by omega
  have hguard2 : ¬(f % 2 ^ 32 > 0x7FFFFFFF) := by omega
  obtain ⟨hr1, he1⟩ := setStart_clear_run f s r1 r2 hguard1 hb1 hb2
  obtain ⟨hr2, he2⟩ := setDelta_clear_run_inc f s r1 r2 hguard2 hb1 hb2
  rw [hm, hfw] at he1 he2
  have hdivlt : f * 2 ^ 24 / mclk / 4096 < 4096 := by
    have := hacc
    omega
  refine ⟨hacc, ?_, ?_⟩
  · obtain ⟨hp1, hp2, hs1, hs2⟩ := payload_pair AD5932_FSTART_LO (f * 2 ^ 24 / mclk) (by norm_num [AD5932_FSTART_LO])
    obtain ⟨hq1, hq2, ht1, ht2⟩ := payload_pair AD5932_FSTART_HI (f * 2 ^ 24 / mclk) (by norm_num [AD5932_FSTART_HI])
    refine ⟨AD5932_FSTART_LO ||| (f * 2 ^ 24 / mclk &&& 4095),
      AD5932_FSTART_HI ||| ((f * 2 ^ 24 / mclk) >>> 12 &&& 4095), ?_, ?_, ?_, ?_⟩
    · rw [he1, xferWords_append]
      rfl
    · rw [hs1]
      norm_num [selector, AD5932_FSTART_LO]
    · rw [ht2]
      norm_num [selector, AD5932_FSTART_HI]
    · rw [hq2, hp1, Nat.mod_eq_of_lt hdivlt]
      omega
  · obtain ⟨hp1, hp2, hs1, hs2⟩ := payload_pair AD5932_DFREQ_LO (f * 2 ^ 24 / mclk) (by norm_num [AD5932_DFREQ_LO])
    obtain ⟨hq1, hq2, ht1, ht2⟩ := payload_pair AD5932_DFREQ_HI (f * 2 ^ 24 / mclk) (by norm_num [AD5932_DFREQ_HI])
    refine ⟨AD5932_DFREQ_LO ||| (f * 2 ^ 24 / mclk &&& 4095),
      AD5932_DFREQ_HI ||| ((f * 2 ^ 24 / mclk) >>> 12 &&& 4095), ?_, ?_, ?_, ?_⟩
    · rw [he2, xferWords_append]
      rfl
    · rw [hs1]
      norm_num [selector, AD5932_DFREQ_LO]
    · rw [ht2]
      norm_num [selector, AD5932_DFREQ_HI]
    · rw [hq2, hp1, Nat.mod_eq_of_lt hdivlt]
      omega

/-- C1 counterexample: at f = mclk = 1 (so 0 < f ≤ mclk), the code emits the
words 0xC000 and 0xD000: the accumulator 2^24 wraps out of the two 12-bit
payloads, the reconstruction is 0 ≠ floor(f * 2^24 / mclk) = 2^24, and the
bound acc < 2^24 fails. -/
theorem C1_counterexample :
    0 < 1 ∧ (1 : Nat) ≤ 1 ∧
    xferWords (AD5932_SetStartFrequency 1 (mkSt 1 clearBus)).2.events = [0xC000, 0xD000] ∧
    payload 0xD000 * 4096 + payload 0xC000 = 0 ∧
    1 * 2 ^ 24 / 1 = 2 ^ 24 ∧
    ¬(payload 0xD000 * 4096 + payload 0xC000 = 1 * 2 ^ 24 / 1) ∧
    ¬(1 * 2 ^ 24 / 1 < 2 ^ 24) := by decide

/-- Witness for C1 at f = 1000 Hz, mclk = 50 MHz over a clear bus. -/
theorem C1_frequency_accumulator_witness :
    (1000 : Nat) < 50000000 ∧
    (1000 * 2 ^ 24 / 50000000 < 2 ^ 24 ∧
    (∃ lo hi,
      xferWords (AD5932_SetStartFrequency 1000 (mkSt 50000000 clearBus)).2.events =
        xferWords (mkSt 50000000 clearBus).events ++ [lo, hi] ∧
      selector lo = 12 ∧ selector hi = 13 ∧
      payload hi * 4096 + payload lo = 1000 * 2 ^ 24 / 50000000) ∧
    (∃ lo hi,
      xferWords (AD5932_SetDeltaFrequency 1000 INCREMENTAL_SWEEP (mkSt 50000000 clearBus)).2.events =
        xferWords (mkSt 50000000 clearBus).events ++ [lo, hi] ∧
      selector lo = 2 ∧ selector hi = 3 ∧
      payload hi * 4096 + payload lo = 1000 * 2 ^ 24 / 50000000)) :=
  ⟨by norm_num,
   C1_frequency_accumulator 1000 50000000 (mkSt 50000000 clearBus) 1 1 rfl
     (by norm_num) (by norm_num) (by norm_num) rfl rfl⟩

/-- C2 (code bug): with the bus busy on the first transfer (the control
register) and clear afterwards, the sweep-setup sequence does not abort:
the step outcome `AD5932_PORT_BUSY` (0xFFFF) is positive, so the chain of
`ret < 0` checks misses it, all six remaining words are still transmitted,
and the operation reports overall success (0) instead of a step error. -/
theorem C2_sequence_continues_after_busy :
    (AD5932_SweepGenerator 1000 1000 2 WAVE_OUT_BASED 100 INCREMENTAL_SWEEP SINE_OUT
        MSBOUT_EN AUTOMATIC_TRIGGER SYNCSEL_END SYNCOUT_EN (mkSt 50000000 busyFirstBus)).1 = 0 ∧
    xferWords (AD5932_SweepGenerator 1000 1000 2 WAVE_OUT_BASED 100 INCREMENTAL_SWEEP SINE_OUT
        MSBOUT_EN AUTOMATIC_TRIGGER SYNCSEL_END SYNCOUT_EN (mkSt 50000000 busyFirstBus)).2.events =
      [0xC14F, 0xD000, 0x214F, 0x3000, 0x4064, 0x1002] := by decide

/-- C3 (code bug): out-of-range parameters do not fail the sweep setup
before any bus write.  With increment count 5000 (out of [2,4095]) six words
are transmitted first and the operation still returns 0, because
`AD5932_PARAM_ERROR` (0xFFF0) is positive and the `ret < 0` check misses
it; with start frequency 2^31 (out of range) the control word has already
been written, the start-frequency error is likewise ignored, and the
remaining five words go out. -/
theorem C3_sequence_ignores_param_error :
    (AD5932_SweepGenerator 1000 1000 5000 WAVE_OUT_BASED 100 INCREMENTAL_SWEEP SINE_OUT
        MSBOUT_EN AUTOMATIC_TRIGGER SYNCSEL_END SYNCOUT_EN (mkSt 50000000 clearBus)).1 = 0 ∧
    xferWords (AD5932_SweepGenerator 1000 1000 5000 WAVE_OUT_BASED 100 INCREMENTAL_SWEEP SINE_OUT
        MSBOUT_EN AUTOMATIC_TRIGGER SYNCSEL_END SYNCOUT_EN (mkSt 50000000 clearBus)).2.events =
      [0x0FDF, 0xC14F, 0xD000, 0x214F, 0x3000, 0x4064] ∧
    (AD5932_SweepGenerator (2 ^ 31) 1000 2 WAVE_OUT_BASED 100 INCREMENTAL_SWEEP SINE_OUT
        MSBOUT_EN AUTOMATIC_TRIGGER SYNCSEL_END SYNCOUT_EN (mkSt 50000000 clearBus)).1 = 0 ∧
    xferWords (AD5932_SweepGenerator (2 ^ 31) 1000 2 WAVE_OUT_BASED 100 INCREMENTAL_SWEEP SINE_OUT
        MSBOUT_EN AUTOMATIC_TRIGGER SYNCSEL_END SYNCOUT_EN (mkSt 50000000 clearBus)).2.events =
      [0x0FDF, 0x214F, 0x3000, 0x4064, 0x1002] := by decide

/-- C4 (code bug): for the clock-cycle basis the code ORs the enumerator
`MCLK_INP_BASED` (numeric 0) instead of the selector constant
`AD5932_TINT_MCLKCYCLES` (0x6000), so interval 100 goes out as the word
0x0064 — register selector 0000 (the control register), not the specified
0110.  The waveform-cycle basis and the range check behave as specified. -/
theorem C4_mclk_interval_selector :
    (AD5932_SetIncrementIntervall 100 MCLK_INP_BASED (mkSt 50000000 clearBus)).1 = 0 ∧
    xferWords (AD5932_SetIncrementIntervall 100 MCLK_INP_BASED (mkSt 50000000 clearBus)).2.events = [100] ∧
    selector 100 = 0 ∧
    ¬selector 100 = 6 ∧
    AD5932_TINT_MCLKCYCLES ||| 100 = 0x6064 ∧
    xferWords (AD5932_SetIncrementIntervall 100 WAVE_OUT_BASED (mkSt 50000000 clearBus)).2.events = [0x4064] ∧
    selector 0x4064 = 4 ∧ payload 0x4064 = 100 ∧
    (AD5932_SetIncrementIntervall 2048 MCLK_INP_BASED (mkSt 50000000 clearBus)).1 = AD5932_PARAM_ERROR ∧
    xferWords (AD5932_SetIncrementIntervall 2048 MCLK_INP_BASED (mkSt 50000000 clearBus)).2.events = [] ∧
    (AD5932_SetIncrementIntervall 1 MCLK_INP_BASED (mkSt 50000000 clearBus)).1 = AD5932_PARAM_ERROR := by decide

/-- C5 (code bug): when `SSP_Transfer` reports the error -5 on the first
word of a start-frequency operation, the operation does not propagate it:
only `AD5932_PORT_BUSY` triggers the early return, a negative code falls
through, and the function ends in `return 0`.  The same happens when every
transfer fails.  The caller sees success, not the bus error. -/
theorem C5_error_swallowed :
    (AD5932_SetStartFrequency 1000 (mkSt 50000000 errFirstBus)).1 = 0 ∧
    xferWords (AD5932_SetStartFrequency 1000 (mkSt 50000000 errFirstBus)).2.events =
      [0xC14F, 0xD000] ∧
    (AD5932_SetStartFrequency 1000 (mkSt 50000000 errAllBus)).1 = 0 ∧
    (AD5932_SetDeltaFrequency 1000 INCREMENTAL_SWEEP (mkSt 50000000 errAllBus)).1 = 0 := by decide

theorem ctrlWord_lt (d w m t ss so : Nat) : ctrlWord d w m t ss so < 2 ^ 16 := by
  unfold ctrlWord AD5932_CREG
  simp only [Nat.zero_or]
  exact Nat.mod_lt _ (by norm_num)

theorem ctrlWord_bits (d w m t ss so : Nat)
    (hd : d ≤ 1) (hw : w ≤ 1) (hm : m ≤ 1) (ht : t ≤ 1) (hss : ss ≤ 1) (hso : so ≤ 1) :
    selector (ctrlWord d w m t ss so) = 0 ∧
    (ctrlWord d w m t ss so).testBit 0 = true ∧
    (ctrlWord d w m t ss so).testBit 1 = true ∧
    ((ctrlWord d w m t ss so).testBit 2 = true ↔ so = 1) ∧
    ((ctrlWord d w m t ss so).testBit 3 = true ↔ ss = 1) ∧
    (ctrlWord d w m t ss so).testBit 4 = true ∧
    ((ctrlWord d w m t ss so).testBit 5 = true ↔ t = 1) ∧
    (ctrlWord d w m t ss so).testBit 6 = true ∧
    (ctrlWord d w m t ss so).testBit 7 = true ∧
    ((ctrlWord d w m t ss so).testBit 8 = true ↔ m = 1) ∧
    ((ctrlWord d w m t ss so).testBit 9 = true ↔ w = 1) ∧
    ((ctrlWord d w m t ss so).testBit 10 = true ↔ d = 1) ∧
    (ctrlWord d w m t ss so).testBit 11 = true := by
  interval_cases d <;> interval_cases w <;> interval_cases m <;>
    interval_cases t <;> interval_cases ss <;> interval_cases so <;> decide

theorem ctrl_trace (d w m t ss so : Nat) (s : St) (r : Int)
    (hb : s.bus s.busIdx = BusOutcome.clear r) :
    (AD5932_SetControlRegister d w m t ss so s).2.events =
      s.events ++ [Event.fsync false, Event.xfer (ctrlWord d w m t ss so), Event.fsync true] := by
  have hmod : ctrlWord d w m t ss so % 2 ^ 16 = ctrlWord d w m t ss so :=
    Nat.mod_eq_of_lt (ctrlWord_lt d w m t ss so)
  simp only [AD5932_SetControlRegister, setCMD, AD5932_SendSPICommand, AD5932_SetFSYNCPin]
  rw [hb]
  simp [hmod, List.append_assoc]
  exact ctrlWord_lt d w m t ss so

/-- C6: for every combination of the six flag values (each 0 or 1), the
control-register operation transmits exactly one word, the pure function
`ctrlWord` of the flags alone (so identical flags always yield the identical
word); its register selector is 0000 and its 12-bit payload has bit0 = 1,
bit1 = 1, bit2 = sync-out enable, bit3 = sync-select, bit4 = 1,
bit5 = trigger type, bit6 = 1, bit7 = 1, bit8 = MSB-out enable,
bit9 = waveform shape, bit10 = DAC enable and bit11 = 1. -/
theorem C6_control_register_encoding (d w m t ss so : Nat) (s : St) (r : Int)
    (hd : d ≤ 1) (hw : w ≤ 1) (hm : m ≤ 1) (ht : t ≤ 1) (hss : ss ≤ 1) (hso : so ≤ 1)
    (hb : s.bus s.busIdx = BusOutcome.clear r) :
    xferWords (AD5932_SetControlRegister d w m t ss so s).2.events =
      xferWords s.events ++ [ctrlWord d w m t ss so] ∧
    selector (ctrlWord d w m t ss so) = 0 ∧
    (ctrlWord d w m t ss so).testBit 0 = true ∧
    (ctrlWord d w m t ss so).testBit 1 = true ∧
    ((ctrlWord d w m t ss so).testBit 2 = true ↔ so = 1) ∧
    ((ctrlWord d w m t ss so).testBit 3 = true ↔ ss = 1) ∧
    (ctrlWord d w m t ss so).testBit 4 = true ∧
    ((ctrlWord d w m t ss so).testBit 5 = true ↔ t = 1) ∧
    (ctrlWord d w m t ss so).testBit 6 = true ∧
    (ctrlWord d w m t ss so).testBit 7 = true ∧
    ((ctrlWord d w m t ss so).testBit 8 = true ↔ m = 1) ∧
    ((ctrlWord d w m t ss so).testBit 9 = true ↔ w = 1) ∧
    ((ctrlWord d w m t ss so).testBit 10 = true ↔ d = 1) ∧
    (ctrlWord d w m t ss so).testBit 11 = true := by
  refine ⟨?_, ctrlWord_bits d w m t ss so hd hw hm ht hss hso⟩
  rw [ctrl_trace d w m t ss so s r hb, xferWords_append]
  rfl

/-- Witness for C6 at flags (1, 1, 1, 0, 1, 0) over a clear bus. -/
theorem C6_control_register_encoding_witness :
    (1 : Nat) ≤ 1 ∧
    (xferWords (AD5932_SetControlRegister 1 1 1 0 1 0 (mkSt 1 clearBus)).2.events =
      xferWords (mkSt 1 clearBus).events ++ [ctrlWord 1 1 1 0 1 0] ∧
    selector (ctrlWord 1 1 1 0 1 0) = 0 ∧
    (ctrlWord 1 1 1 0 1 0).testBit 0 = true ∧
    (ctrlWord 1 1 1 0 1 0).testBit 1 = true ∧
    ((ctrlWord 1 1 1 0 1 0).testBit 2 = true ↔ (0 : Nat) = 1) ∧
    ((ctrlWord 1 1 1 0 1 0).testBit 3 = true ↔ (1 : Nat) = 1) ∧
    (ctrlWord 1 1 1 0 1 0).testBit 4 = true ∧
    ((ctrlWord 1 1 1 0 1 0).testBit 5 = true ↔ (0 : Nat) = 1) ∧
    (ctrlWord 1 1 1 0 1 0).testBit 6 = true ∧
    (ctrlWord 1 1 1 0 1 0).testBit 7 = true ∧
    ((ctrlWord 1 1 1 0 1 0).testBit 8 = true ↔ (1 : Nat) = 1) ∧
    ((ctrlWord 1 1 1 0 1 0).testBit 9 = true ↔ (1 : Nat) = 1) ∧
    ((ctrlWord 1 1 1 0 1 0).testBit 10 = true ↔ (1 : Nat) = 1) ∧
    (ctrlWord 1 1 1 0 1 0).testBit 11 = true) :=
  ⟨by norm_num,
   C6_control_register_encoding 1 1 1 0 1 0 (mkSt 1 clearBus) 1 (by norm_num) (by norm_num)
     (by norm_num) (by norm_num) (by norm_num) (by norm_num) rfl⟩

/-- C7 counterexample: for the in-range delta frequency 1 Hz at mclk = 2 Hz
with an incremental sweep, the accumulator is 2^23, whose bit 23 lands on
bit 11 of the HIGH word's payload: the HIGH word is 0x3800 and bit 11 is
set although the sweep direction is incrementing. -/
theorem C7_counterexample :
    (1 : Nat) ≤ 0x7FFFFFFF ∧
    xferWords (AD5932_SetDeltaFrequency 1 INCREMENTAL_SWEEP (mkSt 2 clearBus)).2.events =
      [0x2000, 0x3800] ∧
    Nat.testBit 0x3800 11 = true := by decide

/-- C7 (amended): for every in-range delta frequency over a clear bus, a
decrementing sweep sets bit 11 of the delta-frequency HIGH word; an
incrementing sweep leaves bit 11 equal to bit 23 of the computed
accumulator value (so it is clear exactly when the accumulator is below
2^23, not always). -/
theorem C7_direction_bit (value : Nat) (s : St) (r1 r2 : Int)
    (hv : value ≤ 0x7FFFFFFF)
    (hb1 : s.bus s.busIdx = BusOutcome.clear r1)
    (hb2 : s.bus (s.busIdx + 1) = BusOutcome.clear r2) :
    (∃ lo hi,
      xferWords (AD5932_SetDeltaFrequency value DECREMENTAL_SWEEP s).2.events =
        xferWords s.events ++ [lo, hi] ∧ hi.testBit 11 = true) ∧
    (∃ lo hi,
      xferWords (AD5932_SetDeltaFrequency value INCREMENTAL_SWEEP s).2.events =
        xferWords s.events ++ [lo, hi] ∧
      hi.testBit 11 = (freqWord (value % 2 ^ 32) s.ad5932MCLK).testBit 23) := by
  have hguard : ¬(value % 2 ^ 32 > 0x7FFFFFFF) := by omega
  obtain ⟨hrd, hed⟩ := setDelta_clear_run_dec value s r1 r2 hguard hb1 hb2
  obtain ⟨hri, hei⟩ := setDelta_clear_run_inc value s r1 r2 hguard hb1 hb2
  constructor
  · refine ⟨AD5932_DFREQ_LO ||| (freqWord (value % 2 ^ 32) s.ad5932MCLK &&& 4095),
      (AD5932_DFREQ_HI ||| (freqWord (value % 2 ^ 32) s.ad5932MCLK >>> 12 &&& 4095)) ||| 1 <<< 11,
      ?_, ?_⟩
    · rw [hed, xferWords_append]
      rfl
    · rw [Nat.testBit_or, Nat.one_shiftLeft, Nat.testBit_two_pow_self]
      simp
  · refine ⟨AD5932_DFREQ_LO ||| (freqWord (value % 2 ^ 32) s.ad5932MCLK &&& 4095),
      AD5932_DFREQ_HI ||| (freqWord (value % 2 ^ 32) s.ad5932MCLK >>> 12 &&& 4095),
      ?_, ?_⟩
    · rw [hei, xferWords_append]
      rfl
    · rw [Nat.testBit_or, Nat.testBit_and, Nat.testBit_shiftRight]
      have h1 : AD5932_DFREQ_HI.testBit 11 = false := by decide
      have h2 : Nat.testBit 4095 11 = true := by decide
      rw [h1, h2]
      simp

/-- Witness for C7 at delta frequency 1000 Hz, mclk = 50 MHz. -/
theorem C7_direction_bit_witness :
    (1000 : Nat) ≤ 0x7FFFFFFF ∧
    ((∃ lo hi,
      xferWords (AD5932_SetDeltaFrequency 1000 DECREMENTAL_SWEEP (mkSt 50000000 clearBus)).2.events =
        xferWords (mkSt 50000000 clearBus).events ++ [lo, hi] ∧ hi.testBit 11 = true) ∧
    (∃ lo hi,
      xferWords (AD5932_SetDeltaFrequency 1000 INCREMENTAL_SWEEP (mkSt 50000000 clearBus)).2.events =
        xferWords (mkSt 50000000 clearBus).events ++ [lo, hi] ∧
      hi.testBit 11 = (freqWord (1000 % 2 ^ 32) (mkSt 50000000 clearBus).ad5932MCLK).testBit 23)) :=
  ⟨by norm_num,
   C7_direction_bit 1000 (mkSt 50000000 clearBus) 1 1 (by norm_num) rfl rfl⟩

/-- C8: when the bus reports busy, the protocol driver returns
`AD5932_PORT_BUSY` with the state unchanged except the environment index —
no frame-select edge and no transfer; when the bus is clear, the transfer
is framed by FSYNC low before and FSYNC high after, whether the transfer
succeeds (positive raw return, mapped to 0) or fails (non-positive raw
return, passed through). -/
theorem C8_frame_select (w : Nat) (s : St) :
    (s.bus s.busIdx = BusOutcome.busy →
      AD5932_SendSPICommand w s = (AD5932_PORT_BUSY, { s with busIdx := s.busIdx + 1 })) ∧
    (∀ r : Int, s.bus s.busIdx = BusOutcome.clear r →
      (AD5932_SendSPICommand w s).2.events =
        s.events ++ [Event.fsync false, Event.xfer (w % 2 ^ 16), Event.fsync true] ∧
      (AD5932_SendSPICommand w s).1 = if r > 0 then 0 else r) := by
  refine ⟨fun h => send_busy w s h, fun r h => ?_⟩
  rw [send_clear w s r h]
  exact ⟨rfl, rfl⟩

/-- Witness for C8: one busy interaction and one clear interaction. -/
theorem C8_frame_select_witness :
    AD5932_SendSPICommand 5 (mkSt 1 busyBus) = (AD5932_PORT_BUSY, { mkSt 1 busyBus with busIdx := 1 }) ∧
    (AD5932_SendSPICommand 5 (mkSt 1 clearBus)).2.events =
      [Event.fsync false, Event.xfer 5, Event.fsync true] := by
  constructor
  · exact (C8_frame_select 5 (mkSt 1 busyBus)).1 rfl
  · exact ((C8_frame_select 5 (mkSt 1 clearBus)).2 1 rfl).1

/-- C9 counterexample: configuring single-frequency output
(1000 Hz, sine, MSB out, automatic trigger) at mclk = 50 MHz emits the
control word 0x0FFF — its trigger bit (bit 5) is set, because the code
hard-wires `EXTERNAL_TRIGGER` into the control register — and the following
low word is 0xC14F (start-frequency-low selector 0xC000), not the claimed
`0x2000 | 0x14F`. -/
theorem C9_counterexample :
    xferWords (AD5932_SingleFrequencyGenerator 1000 SINE_OUT MSBOUT_EN AUTOMATIC_TRIGGER
        (mkSt 50000000 clearBus)).2.events = [0x0FFF, 0xC14F, 0xD000] ∧
    ¬Nat.testBit 0x0FFF 5 = false ∧
    ¬(0xC14F = AD5932_DFREQ_LO ||| 0x14F) := by decide

/-- C9 (amended): the scenario emits a control word with sine = 1 (bit 9),
MSB out = 1 (bit 8), DAC = 1 (bit 10) but trigger bit = 1 (external
trigger is hard-wired; the requested automatic mode is emulated by the CTRL
pulse), then the two start-frequency words for
acc = floor(1000 * 2^24 / 50000000) = 335: low `0xC000 | 0x14F` and high
`0xD000 | 0x000`, and finally the trigger pulse (CTRL high, 100
microseconds, CTRL low). -/
theorem C9_single_frequency_scenario :
    (AD5932_SingleFrequencyGenerator 1000 SINE_OUT MSBOUT_EN AUTOMATIC_TRIGGER
        (mkSt 50000000 clearBus)).1 = 0 ∧
    (AD5932_SingleFrequencyGenerator 1000 SINE_OUT MSBOUT_EN AUTOMATIC_TRIGGER
        (mkSt 50000000 clearBus)).2.events =
      [Event.ctrl false,
       Event.fsync false, Event.xfer 0x0FFF, Event.fsync true,
       Event.fsync false, Event.xfer 0xC14F, Event.fsync true,
       Event.fsync false, Event.xfer 0xD000, Event.fsync true,
       Event.ctrl true, Event.delayUs 100, Event.ctrl false] ∧
    1000 * 2 ^ 24 / 50000000 = 335 ∧
    0xC14F = AD5932_FSTART_LO ||| 0x14F ∧
    0xD000 = AD5932_FSTART_HI ||| 0x000 ∧
    payload 0xD000 * 4096 + payload 0xC14F = 335 ∧
    Nat.testBit 0x0FFF 9 = true ∧
    Nat.testBit 0x0FFF 8 = true ∧
    Nat.testBit 0x0FFF 10 = true ∧
    Nat.testBit 0x0FFF 5 = true := by decide

/-- C10: the start-frequency operation rejects frequency 0 with
`AD5932_PARAM_ERROR`, leaving the state untouched (no bus transfer), while
the delta-frequency operation accepts 0 and transmits the two words
`AD5932_DFREQ_LO` and `AD5932_DFREQ_HI`, both with payload 0 — the two
setters treat the zero edge case differently. -/
theorem C10_zero_edge_cases (s : St) (r1 r2 : Int)
    (hb1 : s.bus s.busIdx = BusOutcome.clear r1)
    (hb2 : s.bus (s.busIdx + 1) = BusOutcome.clear r2) :
    AD5932_SetStartFrequency 0 s = (AD5932_PARAM_ERROR, s) ∧
    (AD5932_SetDeltaFrequency 0 INCREMENTAL_SWEEP s).1 = 0 ∧
    xferWords (AD5932_SetDeltaFrequency 0 INCREMENTAL_SWEEP s).2.events =
      xferWords s.events ++ [AD5932_DFREQ_LO, AD5932_DFREQ_HI] ∧
    payload AD5932_DFREQ_LO = 0 ∧ payload AD5932_DFREQ_HI = 0 := by
  obtain ⟨hri, hei⟩ := setDelta_clear_run_inc 0 s r1 r2 (by norm_num) hb1 hb2
  have hfw : freqWord (0 % 2 ^ 32) s.ad5932MCLK = 0 := by
    simp [freqWord]
  rw [hfw] at hei
  simp only [Nat.zero_and, Nat.or_zero, Nat.zero_shiftRight] at hei
  refine ⟨?_, hri, ?_, by decide, by decide⟩
  · norm_num [AD5932_SetStartFrequency]
  · rw [hei, xferWords_append]
    rfl

/-- Witness for C10 over a clear bus at mclk = 50 MHz. -/
theorem C10_zero_edge_cases_witness :
    AD5932_SetStartFrequency 0 (mkSt 50000000 clearBus) =
      (AD5932_PARAM_ERROR, mkSt 50000000 clearBus) ∧
    (AD5932_SetDeltaFrequency 0 INCREMENTAL_SWEEP (mkSt 50000000 clearBus)).1 = 0 ∧
    xferWords (AD5932_SetDeltaFrequency 0 INCREMENTAL_SWEEP (mkSt 50000000 clearBus)).2.events =
      xferWords (mkSt 50000000 clearBus).events ++ [AD5932_DFREQ_LO, AD5932_DFREQ_HI] ∧
    payload AD5932_DFREQ_LO = 0 ∧ payload AD5932_DFREQ_HI = 0 :=
  C10_zero_edge_cases (mkSt 50000000 clearBus) 1 1 rfl rfl

end AD5932

